import Mathlib

/-!
Verification of the patient-triage scheduling engine.

Shallow embedding of the repository's scheduling code:
- models.py      : VitalSigns, RiskAssessment (priority scoring), PatientQueue
- rl_scheduler.py: PatientSchedulerRL (Q-learning), PriorityManager
- utils.py       : manage_patient_queue, calculate_estimated_wait_time
- main.py        : the pop-next endpoint (get_next_patient)

Python floats are modelled as rationals, Python ints as integers.  Time is a
rational number of minutes; a function that reads the clock in the source
takes the current time (or the elapsed minutes) as an explicit argument.
The epsilon-greedy random action choice and the RL state-key construction
(which reads the wall clock and queue statistics) are passed in as explicit
oracle functions, so that every run of the embedded scheduler corresponds to
one resolved run of the source.
-/

/-- ASCII lowercasing of a string, modelling the Python str.lower() calls on
risk-level labels (String.toLower of the core library computes the same
character map but does not reduce inside the kernel). -/
def String.lowerStr (s : String) : String :=
  ⟨s.data.map Char.toLower⟩

namespace Triage

/-- Vital signs record, mirroring models.VitalSigns (ints stay ints,
floats become rationals). -/
structure VitalSigns where
  heart_rate : ℤ
  respiratory_rate : ℤ
  body_temperature : ℚ
  oxygen_saturation : ℤ
  systolic_blood_pressure : ℤ
  diastolic_blood_pressure : ℤ
  age : ℤ
  gender : ℤ
  weight : ℚ
  height : ℚ
  derived_hrv : ℚ
  derived_pulse_pressure : ℚ
  derived_bmi : ℚ
  derived_map : ℚ
deriving DecidableEq

/-- Risk assessment, mirroring models.RiskAssessment.  The source stores an
Optional timestamp that defaults to None and is set to the current time on
first read of the urgency (returning urgency 1.0, i.e. the value at elapsed
time zero); every admission path (utils.create_risk_assessment_with_priority)
sets it explicitly, so the embedding keeps a plain rational timestamp.  The
mutable caches priority_score and time_factor are recomputed on every read
and are modelled as functions rather than fields. -/
structure RiskAssessment where
  risk_level : String
  vital_signs : VitalSigns
  confidence_score : ℚ := 0
  timestamp : ℚ
deriving DecidableEq

/-- Base risk weight: the risk_weights dict lookup with default 10.0 in
models.RiskAssessment.calculate_priority_score. -/
def baseScore (risk_level : String) : ℚ :=
  if risk_level.lowerStr = "high" then 100
  else if risk_level.lowerStr = "medium" then 50
  else if risk_level.lowerStr = "low" then 10
  else 10

/-- Time urgency, mirroring models.RiskAssessment._calculate_time_urgency.
Elapsed time in minutes is now minus the assessment timestamp. -/
def timeUrgency (a : RiskAssessment) (now : ℚ) : ℚ :=
  let time_elapsed := now - a.timestamp
  if a.risk_level.lowerStr = "high" then 1 + time_elapsed / 10
  else if a.risk_level.lowerStr = "medium" then 1 + time_elapsed / 30
  else 1 + time_elapsed / 120

/-- Critical vitals factor, mirroring
models.RiskAssessment._calculate_critical_vitals_factor: five independent
penalties accumulated and then capped at 1.0. -/
def criticalVitalsFactor (vs : VitalSigns) : ℚ :=
  let cf : ℚ := 0
  let cf := if vs.heart_rate < 50 ∨ 120 < vs.heart_rate then cf + 3/10 else cf
  let cf := if vs.systolic_blood_pressure < 90 ∨ 180 < vs.systolic_blood_pressure then
    cf + 4/10 else cf
  let cf := if vs.oxygen_saturation < 90 then cf + 5/10 else cf
  let cf := if vs.body_temperature < 35 ∨ 39 < vs.body_temperature then cf + 3/10 else cf
  let cf := if vs.respiratory_rate < 12 ∨ 25 < vs.respiratory_rate then cf + 2/10 else cf
  min cf 1

/-- Age factor used by calculate_priority_score: min(age / 80.0, 1.5). -/
def age_factor (vs : VitalSigns) : ℚ :=
  min ((vs.age : ℚ) / 80) (3/2)

/-- Priority score, mirroring models.RiskAssessment.calculate_priority_score. -/
def calculate_priority_score (a : RiskAssessment) (now : ℚ) : ℚ :=
  let base_score := baseScore a.risk_level
  let confidence_factor := a.confidence_score
  let time_urgency := timeUrgency a now
  let critical_factor := criticalVitalsFactor a.vital_signs
  base_score * confidence_factor * time_urgency *
    (1 + age_factor a.vital_signs) * (1 + critical_factor)

/-- Spec-side description of the critical factor before capping: the plain
sum of the five independent indicator penalties. -/
def criticalSum (vs : VitalSigns) : ℚ :=
  (if vs.heart_rate < 50 ∨ 120 < vs.heart_rate then (3 : ℚ)/10 else 0)
  + (if vs.systolic_blood_pressure < 90 ∨ 180 < vs.systolic_blood_pressure then
      (4 : ℚ)/10 else 0)
  + (if vs.oxygen_saturation < 90 then (5 : ℚ)/10 else 0)
  + (if vs.body_temperature < 35 ∨ 39 < vs.body_temperature then (3 : ℚ)/10 else 0)
  + (if vs.respiratory_rate < 12 ∨ 25 < vs.respiratory_rate then (2 : ℚ)/10 else 0)

/-- Predicate: all five critical-vitals indicators fire at once. -/
def allFiveCritical (vs : VitalSigns) : Prop :=
  (vs.heart_rate < 50 ∨ 120 < vs.heart_rate)
  ∧ (vs.systolic_blood_pressure < 90 ∨ 180 < vs.systolic_blood_pressure)
  ∧ vs.oxygen_saturation < 90
  ∧ (vs.body_temperature < 35 ∨ 39 < vs.body_temperature)
  ∧ (vs.respiratory_rate < 12 ∨ 25 < vs.respiratory_rate)

instance (vs : VitalSigns) : Decidable (allFiveCritical vs) := by
  unfold allFiveCritical
  infer_instance

lemma criticalVitalsFactor_eq_min_sum (vs : VitalSigns) :
    criticalVitalsFactor vs = min (criticalSum vs) 1 := by
  simp only [criticalVitalsFactor, criticalSum]
  split_ifs <;> norm_num

lemma criticalVitalsFactor_nonneg (vs : VitalSigns) : 0 ≤ criticalVitalsFactor vs := by
  simp only [criticalVitalsFactor]
  split_ifs <;> norm_num

lemma criticalVitalsFactor_le_one (vs : VitalSigns) : criticalVitalsFactor vs ≤ 1 := by
  simp only [criticalVitalsFactor]
  split_ifs <;> norm_num

lemma age_factor_nonneg (vs : VitalSigns) (h : 0 ≤ vs.age) : 0 ≤ age_factor vs := by
  unfold age_factor
  have h0 : (0 : ℚ) ≤ (vs.age : ℚ) / 80 := by positivity
  exact le_min h0 (by norm_num)

lemma baseScore_pos (r : String) : 0 < baseScore r := by
  unfold baseScore
  split_ifs <;> norm_num

lemma one_le_timeUrgency (a : RiskAssessment) (now : ℚ) (h : a.timestamp ≤ now) :
    1 ≤ timeUrgency a now := by
  have he : 0 ≤ now - a.timestamp := by linarith
  simp only [timeUrgency]
  split_ifs <;> nlinarith

lemma timeUrgency_mono (a : RiskAssessment) (now1 now2 : ℚ) (h : now1 ≤ now2) :
    timeUrgency a now1 ≤ timeUrgency a now2 := by
  simp only [timeUrgency]
  split_ifs <;> nlinarith

/-- Queue entry, mirroring models.PatientQueue. The rl_action field holds the
name of the chosen action as in the source. -/
structure PatientQueue where
  patient_id : String
  risk_assessment : RiskAssessment
  queue_position : ℤ := 0
  estimated_wait_time : ℤ := 0
  rl_adjustment : ℚ := 0
  rl_state : Option String := none
  rl_action : Option String := none
deriving DecidableEq

/-- Final priority, mirroring models.PatientQueue.get_final_priority: the
recomputed priority score, plus the RL adjustment for low-risk entries only. -/
def get_final_priority (p : PatientQueue) (now : ℚ) : ℚ :=
  let base_priority := calculate_priority_score p.risk_assessment now
  if p.risk_assessment.risk_level.lowerStr = "low" then base_priority + p.rl_adjustment
  else base_priority

/-- Action space of the RL scheduler (rl_scheduler.PatientSchedulerRL.actions). -/
inductive RLAction where
  | immediate
  | delay_15
  | delay_30
  | delay_60
  | delay_120
deriving DecidableEq

/-- Delay minutes of each action (action_effects in apply_action_to_patient). -/
def actionDelay : RLAction → ℤ
  | .immediate => 0
  | .delay_15 => 15
  | .delay_30 => 30
  | .delay_60 => 60
  | .delay_120 => 120

/-- Priority boost of each action (action_effects in apply_action_to_patient). -/
def actionBoost : RLAction → ℚ
  | .immediate => 10
  | .delay_15 => 2
  | .delay_30 => 0
  | .delay_60 => -3
  | .delay_120 => -8

/-- Printable action name, as used for the rl_action field. -/
def actionName : RLAction → String
  | .immediate => "immediate"
  | .delay_15 => "delay_15"
  | .delay_30 => "delay_30"
  | .delay_60 => "delay_60"
  | .delay_120 => "delay_120"

/-- Mirrors rl_scheduler.PatientSchedulerRL.apply_action_to_patient: adds the
action delay to the estimated wait and overwrites the RL adjustment. -/
def apply_action_to_patient (action : RLAction) (p : PatientQueue) : PatientQueue :=
  { p with estimated_wait_time := p.estimated_wait_time + actionDelay action,
           rl_adjustment := actionBoost action }

/-- One iteration of the per-patient loop in schedule_patients_with_rl: for a
low-risk patient, consult the RL policy and apply the chosen action, recording
the state and action on the entry.  The state key produced by get_state (which
reads the wall clock and queue statistics) and the epsilon-greedy choice of
choose_action (which consults the random generator and the Q-table) enter as
the oracle arguments stateOf and choice. -/
def rlStep (stateOf : PatientQueue → String) (choice : PatientQueue → RLAction)
    (p : PatientQueue) : PatientQueue :=
  if p.risk_assessment.risk_level.lowerStr = "low" then
    let action := choice p
    let p2 := apply_action_to_patient action p
    { p2 with rl_state := some (stateOf p), rl_action := some (actionName action) }
  else p

/-- Stable insertion into a list ordered by descending final priority: the
inserted element goes in front of the first element whose key does not exceed
its own, which reproduces the ordering produced by Python's stable
list.sort(key=..., reverse=True) when elements are inserted in input order. -/
def insertByPriority (now : ℚ) (x : PatientQueue) : List PatientQueue → List PatientQueue
  | [] => [x]
  | y :: ys =>
    if get_final_priority y now ≤ get_final_priority x now then x :: y :: ys
    else y :: insertByPriority now x ys

/-- Stable sort by descending final priority, modelling the
scheduled_patients.sort(key=lambda p: p.get_final_priority(), reverse=True)
call in schedule_patients_with_rl. -/
def sortByPriority (now : ℚ) : List PatientQueue → List PatientQueue
  | [] => []
  | x :: xs => insertByPriority now x (sortByPriority now xs)

/-- Position assignment loop: for i, patient in enumerate(...):
patient.queue_position = i + 1, started at s = 1. -/
def assignPositions : ℕ → List PatientQueue → List PatientQueue
  | _, [] => []
  | s, p :: ps => { p with queue_position := (s : ℤ) } :: assignPositions (s + 1) ps

/-- Mirrors rl_scheduler.PatientSchedulerRL.schedule_patients_with_rl:
apply the RL step to every entry (it only affects low-risk ones), sort by
descending final priority, and assign 1-based queue positions. -/
def schedule_patients_with_rl (stateOf : PatientQueue → String)
    (choice : PatientQueue → RLAction) (now : ℚ)
    (patients : List PatientQueue) : List PatientQueue :=
  assignPositions 1 (sortByPriority now (patients.map (rlStep stateOf choice)))

/-- Per-class minutes: the base_time_per_patient dict lookup with default 20
in utils.calculate_estimated_wait_time. -/
def baseTimePerPatient (risk_level : String) : ℤ :=
  if risk_level.lowerStr = "high" then 15
  else if risk_level.lowerStr = "medium" then 20
  else if risk_level.lowerStr = "low" then 25
  else 20

/-- Mirrors utils.calculate_estimated_wait_time; position is the 0-based
queue index, exactly as passed by manage_patient_queue. -/
def calculate_estimated_wait_time (p : PatientQueue) (position : ℤ) : ℤ :=
  let base_time := baseTimePerPatient p.risk_assessment.risk_level
  let estimated_wait := position * base_time
  if p.risk_assessment.risk_level.lowerStr = "high" then max 0 (estimated_wait - 10)
  else estimated_wait

/-- Final loop of utils.manage_patient_queue: for i, patient in
enumerate(sorted_queue): queue_position = i + 1 and estimated_wait_time =
calculate_estimated_wait_time(patient, i). -/
def setWaitTimes : ℕ → List PatientQueue → List PatientQueue
  | _, [] => []
  | i, p :: ps =>
    { p with queue_position := (i : ℤ) + 1,
             estimated_wait_time := calculate_estimated_wait_time p (i : ℤ) }
      :: setWaitTimes (i + 1) ps

/-- Entry construction in utils.manage_patient_queue (the patient_id embeds
the 1-based admission index; the source also appends the integral timestamp,
which the embedding drops since ids play no role in any claim). -/
def mkQueueEntry (i : ℕ) (a : RiskAssessment) : PatientQueue :=
  { patient_id := "patient_" ++ toString (i + 1), risk_assessment := a }

/-- Enumeration loop building the queue entries from the assessments. -/
def buildQueue : ℕ → List RiskAssessment → List PatientQueue
  | _, [] => []
  | i, a :: as => mkQueueEntry i a :: buildQueue (i + 1) as

/-- Mirrors utils.manage_patient_queue: build entries from the assessments,
run the RL scheduling pass (PriorityManager.calculate_dynamic_priority defers
to schedule_patients_with_rl), then set positions and wait times. -/
def manage_patient_queue (stateOf : PatientQueue → String)
    (choice : PatientQueue → RLAction) (now : ℚ)
    (assessments : List RiskAssessment) : List PatientQueue :=
  setWaitTimes 0 (schedule_patients_with_rl stateOf choice now (buildQueue 0 assessments))

/-- Mirrors main.get_next_patient: an empty store raises the distinct
"No patients in queue" condition; otherwise the snapshot is computed, its head
is returned, and the store is rewritten keeping only the assessments whose
timestamp differs from the returned patient's timestamp. -/
def popNext (stateOf : PatientQueue → String) (choice : PatientQueue → RLAction)
    (now : ℚ) (assessments : List RiskAssessment) :
    Except String (PatientQueue × List RiskAssessment) :=
  if assessments = [] then .error "No patients in queue"
  else
    match manage_patient_queue stateOf choice now assessments with
    | [] => .error "No patients available"
    | next :: _ =>
      .ok (next, assessments.filter
        (fun a => decide (a.timestamp ≠ next.risk_assessment.timestamp)))

/-- Constructor default learning_rate=0.1 of PatientSchedulerRL. -/
def learning_rate : ℚ := 1/10

/-- Constructor default discount_factor=0.95 of PatientSchedulerRL. -/
def discount_factor : ℚ := 19/20

/-- Constructor default epsilon_decay=0.995 of PatientSchedulerRL. -/
def epsilon_decay : ℚ := 199/200

/-- The min_epsilon=0.01 floor set in PatientSchedulerRL.__init__. -/
def min_epsilon : ℚ := 1/100

/-- Value row of one Q-table state: one value per action, mirroring the inner
dict produced by the comprehension over self.actions.keys(). -/
structure ActionValues where
  immediate : ℚ
  delay_15 : ℚ
  delay_30 : ℚ
  delay_60 : ℚ
  delay_120 : ℚ
deriving DecidableEq

/-- The all-zero row created for a state not yet in the table. -/
def ActionValues.zero : ActionValues := ⟨0, 0, 0, 0, 0⟩

/-- Read the value of one action. -/
def ActionValues.get (v : ActionValues) : RLAction → ℚ
  | .immediate => v.immediate
  | .delay_15 => v.delay_15
  | .delay_30 => v.delay_30
  | .delay_60 => v.delay_60
  | .delay_120 => v.delay_120

/-- Overwrite the value of one action. -/
def ActionValues.set (v : ActionValues) : RLAction → ℚ → ActionValues
  | .immediate, x => { v with immediate := x }
  | .delay_15, x => { v with delay_15 := x }
  | .delay_30, x => { v with delay_30 := x }
  | .delay_60, x => { v with delay_60 := x }
  | .delay_120, x => { v with delay_120 := x }

/-- Maximum over the row: max(self.q_table[next_state].values()). -/
def ActionValues.maxVal (v : ActionValues) : ℚ :=
  max v.immediate (max v.delay_15 (max v.delay_30 (max v.delay_60 v.delay_120)))

/-- Q-table: association list from state key to its action-value row, standing
for the Python dict self.q_table. -/
abbrev QTable := List (String × ActionValues)

/-- Dict membership test: state in self.q_table. -/
def hasState : QTable → String → Bool
  | [], _ => false
  | (k, _) :: t, s => if k = s then true else hasState t s

/-- Dict read with the default row for absent states (absent states are always
inserted as all-zero before being read in update_q_value / choose_action). -/
def lookupQ : QTable → String → ActionValues
  | [], _ => ActionValues.zero
  | (k, v) :: t, s => if k = s then v else lookupQ t s

/-- Insert an all-zero row for a state not yet present, mirroring the
`if state not in self.q_table` initialisation. -/
def ensureState (t : QTable) (s : String) : QTable :=
  if hasState t s then t else t ++ [(s, ActionValues.zero)]

/-- Overwrite one state-action cell: self.q_table[state][action] = new_q. -/
def setQ : QTable → String → RLAction → ℚ → QTable
  | [], _, _, _ => []
  | (k, v) :: t, s, a, x =>
    if k = s then (k, v.set a x) :: t else (k, v) :: setQ t s a x

/-- Mutable scheduler state: the Q-table and the exploration rate (the other
constructor fields are constants, modelled as the definitions above). -/
structure SchedulerState where
  q_table : QTable
  epsilon : ℚ
deriving DecidableEq

/-- Scheduler state at construction time with no persisted table on disk
(load_q_table finds no file or fails and leaves the table empty). -/
def initialScheduler : SchedulerState := { q_table := [], epsilon := 1/10 }

/-- Mirrors rl_scheduler.PatientSchedulerRL.update_q_value: default-initialise
both states, apply the one-step Q-learning update, then decay epsilon. -/
def update_q_value (st : SchedulerState) (state : String) (action : RLAction)
    (reward : ℚ) (next_state : String) : SchedulerState :=
  let t := ensureState st.q_table state
  let t := ensureState t next_state
  let current_q := (lookupQ t state).get action
  let max_next_q := (lookupQ t next_state).maxVal
  let new_q := current_q + learning_rate * (reward + discount_factor * max_next_q - current_q)
  { q_table := setQ t state action new_q,
    epsilon := max min_epsilon (st.epsilon * epsilon_decay) }

/-- Outcome dictionary passed to the feedback path (main.provide_feedback
builds it with these three numeric fields plus a timestamp the scheduler
never reads). -/
structure Outcome where
  actual_wait_time : ℤ
  satisfaction_score : ℚ
  resource_utilization : ℚ
deriving DecidableEq

/-- Mirrors rl_scheduler.PatientSchedulerRL.get_reward. -/
def get_reward (action : RLAction) (p : PatientQueue) (outcome : Outcome) : ℚ :=
  let base_reward : ℚ := 0
  let base_reward :=
    if 120 < outcome.actual_wait_time then base_reward - 10
    else if 60 < outcome.actual_wait_time then base_reward - 5
    else if 30 < outcome.actual_wait_time then base_reward - 2
    else base_reward
  let base_reward := base_reward + outcome.satisfaction_score * 10
  let base_reward := base_reward + outcome.resource_utilization * 5
  if p.risk_assessment.risk_level.lowerStr = "low" then
    if (action = RLAction.delay_30 ∨ action = RLAction.delay_60)
        ∧ 7/10 < outcome.satisfaction_score then base_reward + 3
    else if action = RLAction.immediate ∧ outcome.resource_utilization < 3/10 then
      base_reward - 2
    else base_reward
  else base_reward

/-- Mirrors rl_scheduler.PatientSchedulerRL.provide_feedback, whose entire
body is a pass statement: the scheduler state is returned unchanged, with no
binding lookup and no Q-value update. -/
def provide_feedback (s : SchedulerState) (patient_id : String)
    (outcome : Outcome) : SchedulerState :=
  s

/-- Mutable state of rl_scheduler.PriorityManager: the scheduler plus the
append-only patient_history list. -/
structure ManagerState where
  rl_scheduler : SchedulerState
  patient_history : List (String × Outcome)
deriving DecidableEq

/-- Fresh PriorityManager (empty history, cold scheduler). -/
def initialManager : ManagerState :=
  { rl_scheduler := initialScheduler, patient_history := [] }

/-- Mirrors rl_scheduler.PriorityManager.update_with_outcome: forward to the
(no-op) provide_feedback, append the record to patient_history, and report
whether this call triggers the periodic save_q_table (history length divisible
by 10).  The file write itself is I/O; the returned flag marks the trigger. -/
def update_with_outcome (m : ManagerState) (patient_id : String)
    (outcome : Outcome) : ManagerState × Bool :=
  let s := provide_feedback m.rl_scheduler patient_id outcome
  let history := m.patient_history ++ [(patient_id, outcome)]
  ({ rl_scheduler := s, patient_history := history },
    decide (history.length % 10 = 0))

/-- Trace of repeated identical update_q_value calls with next_state equal to
state, starting from the cold scheduler. -/
def qTrace (state : String) (action : RLAction) (reward : ℚ) : ℕ → SchedulerState
  | 0 => initialScheduler
  | n + 1 => update_q_value (qTrace state action reward n) state action reward state

/-- The tracked Q-value Q(state, action) after n repeated updates. -/
def qVal (state : String) (action : RLAction) (reward : ℚ) (n : ℕ) : ℚ :=
  (lookupQ (qTrace state action reward n).q_table state).get action

/-- Ordering relation a snapshot must satisfy between an earlier and a later
entry: the final priority does not increase along the list, and entries of
equal final priority appear in order of admission timestamp. -/
def snapshotOrder (now : ℚ) (a b : PatientQueue) : Prop :=
  get_final_priority b now ≤ get_final_priority a now
  ∧ (get_final_priority a now = get_final_priority b now →
      a.risk_assessment.timestamp ≤ b.risk_assessment.timestamp)

instance (now : ℚ) (a b : PatientQueue) : Decidable (snapshotOrder now a b) := by
  unfold snapshotOrder
  infer_instance

lemma mem_insertByPriority (now : ℚ) (x z : PatientQueue) :
    ∀ (l : List PatientQueue), z ∈ insertByPriority now x l → z = x ∨ z ∈ l := by
  intro l
  induction l with
  | nil =>
    intro h
    simp only [insertByPriority, List.mem_singleton] at h
    exact Or.inl h
  | cons y ys ih =>
    intro h
    rw [insertByPriority] at h
    split_ifs at h with hc
    · rcases List.mem_cons.1 h with h1 | h2
      · exact Or.inl h1
      · exact Or.inr h2
    · rcases List.mem_cons.1 h with h1 | h2
      · exact Or.inr (h1 ▸ List.mem_cons_self y ys)
      · rcases ih h2 with h3 | h4
        · exact Or.inl h3
        · exact Or.inr (List.mem_cons_of_mem y h4)

lemma insertByPriority_perm (now : ℚ) (x : PatientQueue) :
    ∀ (l : List PatientQueue), (insertByPriority now x l).Perm (x :: l) := by
  intro l
  induction l with
  | nil => simp [insertByPriority]
  | cons y ys ih =>
    rw [insertByPriority]
    split_ifs
    · exact List.Perm.refl _
    · exact (List.Perm.cons y ih).trans (List.Perm.swap x y ys)

lemma sortByPriority_perm (now : ℚ) :
    ∀ (l : List PatientQueue), (sortByPriority now l).Perm l := by
  intro l
  induction l with
  | nil => simp [sortByPriority]
  | cons x xs ih =>
    rw [sortByPriority]
    exact (insertByPriority_perm now x _).trans (List.Perm.cons x ih)

lemma pairwise_insertByPriority (now : ℚ) (x : PatientQueue) :
    ∀ (l : List PatientQueue), List.Pairwise (snapshotOrder now) l →
      (∀ y ∈ l, x.risk_assessment.timestamp ≤ y.risk_assessment.timestamp) →
      List.Pairwise (snapshotOrder now) (insertByPriority now x l) := by
  intro l
  induction l with
  | nil =>
    intro _ _
    simp [insertByPriority]
  | cons y ys ih =>
    intro hl hc
    rcases List.pairwise_cons.1 hl with ⟨hy, hys⟩
    rw [insertByPriority]
    split_ifs with hk
    · refine List.pairwise_cons.2 ⟨?_, hl⟩
      intro z hz
      rcases List.mem_cons.1 hz with rfl | hz2
      · exact ⟨hk, fun _ => hc z (List.mem_cons_self _ _)⟩
      · exact ⟨le_trans (hy z hz2).1 hk, fun _ => hc z (List.mem_cons_of_mem _ hz2)⟩
    · push_neg at hk
      refine List.pairwise_cons.2
        ⟨?_, ih hys (fun z hz => hc z (List.mem_cons_of_mem _ hz))⟩
      intro z hz
      rcases mem_insertByPriority now x z ys hz with rfl | hz2
      · exact ⟨le_of_lt hk, fun he => absurd he (ne_of_gt hk)⟩
      · exact hy z hz2

lemma pairwise_sortByPriority (now : ℚ) :
    ∀ (l : List PatientQueue),
      List.Pairwise
        (fun a b => a.risk_assessment.timestamp ≤ b.risk_assessment.timestamp) l →
      List.Pairwise (snapshotOrder now) (sortByPriority now l) := by
  intro l
  induction l with
  | nil =>
    intro _
    simp [sortByPriority]
  | cons x xs ih =>
    intro h
    rcases List.pairwise_cons.1 h with ⟨hx, hxs⟩
    rw [sortByPriority]
    refine pairwise_insertByPriority now x _ (ih hxs) ?_
    intro y hy
    exact hx y ((sortByPriority_perm now xs).mem_iff.1 hy)

lemma length_assignPositions : ∀ (s : ℕ) (l : List PatientQueue),
    (assignPositions s l).length = l.length := by
  intro s l
  induction l generalizing s with
  | nil => rfl
  | cons p ps ih => simp [assignPositions, ih]

lemma map_pos_assignPositions : ∀ (s : ℕ) (l : List PatientQueue),
    (assignPositions s l).map (fun p => p.queue_position)
      = (List.range' s l.length).map (fun k => (k : ℤ)) := by
  intro s l
  induction l generalizing s with
  | nil => rfl
  | cons p ps ih =>
    rw [assignPositions, List.map_cons, ih (s + 1)]
    rfl

lemma mem_assignPositions : ∀ (s : ℕ) (l : List PatientQueue) (z : PatientQueue),
    z ∈ assignPositions s l →
    ∃ q ∈ l, ∃ j : ℕ, z = { q with queue_position := (j : ℤ) } := by
  intro s l
  induction l generalizing s with
  | nil =>
    intro z hz
    cases hz
  | cons p ps ih =>
    intro z hz
    rcases List.mem_cons.1 hz with rfl | hz2
    · exact ⟨p, List.mem_cons_self _ _, s, rfl⟩
    · obtain ⟨q, hq, j, rfl⟩ := ih (s + 1) z hz2
      exact ⟨q, List.mem_cons_of_mem _ hq, j, rfl⟩

lemma pairwise_assignPositions (now : ℚ) : ∀ (s : ℕ) (l : List PatientQueue),
    List.Pairwise (snapshotOrder now) l →
    List.Pairwise (snapshotOrder now) (assignPositions s l) := by
  intro s l
  induction l generalizing s with
  | nil =>
    intro _
    exact List.Pairwise.nil
  | cons p ps ih =>
    intro h
    rcases List.pairwise_cons.1 h with ⟨hp, hps⟩
    rw [assignPositions]
    refine List.pairwise_cons.2 ⟨?_, ih (s + 1) hps⟩
    intro z hz
    obtain ⟨q, hq, j, rfl⟩ := mem_assignPositions (s + 1) ps z hz
    exact hp q hq

lemma rlStep_risk_assessment (stateOf : PatientQueue → String)
    (choice : PatientQueue → RLAction) (p : PatientQueue) :
    (rlStep stateOf choice p).risk_assessment = p.risk_assessment := by
  unfold rlStep apply_action_to_patient
  split_ifs <;> rfl

lemma rlStep_patient_id (stateOf : PatientQueue → String)
    (choice : PatientQueue → RLAction) (p : PatientQueue) :
    (rlStep stateOf choice p).patient_id = p.patient_id := by
  unfold rlStep apply_action_to_patient
  split_ifs <;> rfl

lemma length_schedule (stateOf : PatientQueue → String)
    (choice : PatientQueue → RLAction) (now : ℚ) (l : List PatientQueue) :
    (schedule_patients_with_rl stateOf choice now l).length = l.length := by
  unfold schedule_patients_with_rl
  rw [length_assignPositions, (sortByPriority_perm now _).length_eq, List.length_map]

lemma length_setWaitTimes : ∀ (i : ℕ) (l : List PatientQueue),
    (setWaitTimes i l).length = l.length := by
  intro i l
  induction l generalizing i with
  | nil => rfl
  | cons p ps ih => simp [setWaitTimes, ih]

lemma map_pos_setWaitTimes : ∀ (i : ℕ) (l : List PatientQueue),
    (setWaitTimes i l).map (fun p => p.queue_position)
      = (List.range' (i + 1) l.length).map (fun k => (k : ℤ)) := by
  intro i l
  induction l generalizing i with
  | nil => rfl
  | cons p ps ih =>
    rw [setWaitTimes, List.map_cons, ih (i + 1)]
    rfl

lemma mem_setWaitTimes : ∀ (i : ℕ) (l : List PatientQueue) (z : PatientQueue),
    z ∈ setWaitTimes i l →
    ∃ q ∈ l, ∃ j : ℕ,
      z = { q with queue_position := (j : ℤ) + 1,
                   estimated_wait_time := calculate_estimated_wait_time q (j : ℤ) } := by
  intro i l
  induction l generalizing i with
  | nil =>
    intro z hz
    cases hz
  | cons p ps ih =>
    intro z hz
    rcases List.mem_cons.1 hz with rfl | hz2
    · exact ⟨p, List.mem_cons_self _ _, i, rfl⟩
    · obtain ⟨q, hq, j, rfl⟩ := ih (i + 1) z hz2
      exact ⟨q, List.mem_cons_of_mem _ hq, j, rfl⟩

lemma length_buildQueue : ∀ (i : ℕ) (l : List RiskAssessment),
    (buildQueue i l).length = l.length := by
  intro i l
  induction l generalizing i with
  | nil => rfl
  | cons a as ih => simp [buildQueue, ih]

lemma map_assessment_buildQueue : ∀ (i : ℕ) (l : List RiskAssessment),
    (buildQueue i l).map (fun p => p.risk_assessment) = l := by
  intro i l
  induction l generalizing i with
  | nil => rfl
  | cons a as ih =>
    rw [buildQueue, List.map_cons, ih (i + 1)]
    rfl

lemma map_assessment_assignPositions : ∀ (s : ℕ) (l : List PatientQueue),
    (assignPositions s l).map (fun p => p.risk_assessment)
      = l.map (fun p => p.risk_assessment) := by
  intro s l
  induction l generalizing s with
  | nil => rfl
  | cons p ps ih =>
    rw [assignPositions, List.map_cons, List.map_cons, ih (s + 1)]

lemma map_assessment_setWaitTimes : ∀ (i : ℕ) (l : List PatientQueue),
    (setWaitTimes i l).map (fun p => p.risk_assessment)
      = l.map (fun p => p.risk_assessment) := by
  intro i l
  induction l generalizing i with
  | nil => rfl
  | cons p ps ih =>
    rw [setWaitTimes, List.map_cons, List.map_cons, ih (i + 1)]

lemma manage_assessments_perm (stateOf : PatientQueue → String)
    (choice : PatientQueue → RLAction) (now : ℚ) (l : List RiskAssessment) :
    ((manage_patient_queue stateOf choice now l).map
      (fun p => p.risk_assessment)).Perm l := by
  unfold manage_patient_queue schedule_patients_with_rl
  rw [map_assessment_setWaitTimes, map_assessment_assignPositions]
  have h1 : ((sortByPriority now
        ((buildQueue 0 l).map (rlStep stateOf choice))).map
        (fun p => p.risk_assessment)).Perm
      (((buildQueue 0 l).map (rlStep stateOf choice)).map
        (fun p => p.risk_assessment)) :=
    (sortByPriority_perm now _).map _
  have h2 : ((buildQueue 0 l).map (rlStep stateOf choice)).map
      (fun p => p.risk_assessment) = l := by
    rw [List.map_map]
    have h3 : ((fun p => p.risk_assessment) ∘ rlStep stateOf choice)
        = fun p : PatientQueue => p.risk_assessment := by
      funext p
      exact rlStep_risk_assessment stateOf choice p
    rw [h3, map_assessment_buildQueue]
  rw [h2] at h1
  exact h1

lemma length_manage (stateOf : PatientQueue → String)
    (choice : PatientQueue → RLAction) (now : ℚ) (l : List RiskAssessment) :
    (manage_patient_queue stateOf choice now l).length = l.length := by
  unfold manage_patient_queue
  rw [length_setWaitTimes, length_schedule, length_buildQueue]

lemma map_pos_manage (stateOf : PatientQueue → String)
    (choice : PatientQueue → RLAction) (now : ℚ) (l : List RiskAssessment) :
    (manage_patient_queue stateOf choice now l).map (fun p => p.queue_position)
      = (List.range' 1 l.length).map (fun k => (k : ℤ)) := by
  unfold manage_patient_queue
  rw [map_pos_setWaitTimes, length_schedule, length_buildQueue]

lemma filter_ne_timestamp_length :
    ∀ (l : List RiskAssessment),
      List.Pairwise (fun a b => a.timestamp ≠ b.timestamp) l →
      ∀ a ∈ l,
      (l.filter (fun b => decide (b.timestamp ≠ a.timestamp))).length + 1 = l.length := by
  intro l
  induction l with
  | nil =>
    intro _ a ha
    cases ha
  | cons x xs ih =>
    intro h a ha
    rcases List.pairwise_cons.1 h with ⟨hx, hxs⟩
    rcases List.mem_cons.1 ha with rfl | ha2
    · have hkeep : xs.filter (fun b => decide (b.timestamp ≠ a.timestamp)) = xs := by
        apply List.filter_eq_self.2
        intro b hb
        simpa using Ne.symm (hx b hb)
      rw [List.filter_cons, if_neg (by simp), hkeep, List.length_cons]
    · have hxa : x.timestamp ≠ a.timestamp := hx a ha2
      have hrec := ih hxs a ha2
      rw [List.filter_cons, if_pos (by simpa using hxa), List.length_cons,
        List.length_cons]
      omega

lemma ActionValues.get_zero (a : RLAction) : ActionValues.zero.get a = 0 := by
  cases a <;> rfl

lemma ActionValues.get_set_same (v : ActionValues) (a : RLAction) (x : ℚ) :
    (v.set a x).get a = x := by
  cases a <;> rfl

lemma ActionValues.set_set (v : ActionValues) (a : RLAction) (x y : ℚ) :
    (v.set a x).set a y = v.set a y := by
  cases a <;> rfl

lemma maxVal_zero : ActionValues.zero.maxVal = 0 := by
  simp [ActionValues.maxVal, ActionValues.zero]

lemma maxVal_zero_set (a : RLAction) (q : ℚ) :
    (ActionValues.zero.set a q).maxVal = max q 0 := by
  cases a <;>
    simp [ActionValues.maxVal, ActionValues.set, ActionValues.zero, max_self,
      max_comm, max_assoc, max_left_comm]

/-- The scalar recurrence the repeated identical update performs on the
tracked cell, with all the other cells of the state row stuck at zero. -/
def qRec (r : ℚ) : ℕ → ℚ
  | 0 => 0
  | n + 1 =>
    qRec r n + learning_rate * (r + discount_factor * max (qRec r n) 0 - qRec r n)

lemma qTrace_table (st : String) (a : RLAction) (r : ℚ) :
    ∀ n : ℕ, (qTrace st a r (n + 1)).q_table
      = [(st, ActionValues.zero.set a (qRec r (n + 1)))] := by
  intro n
  induction n with
  | zero =>
    show (update_q_value initialScheduler st a r st).q_table = _
    simp [update_q_value, initialScheduler, ensureState, hasState, lookupQ, setQ,
      qRec, ActionValues.get_zero, maxVal_zero, max_self]
  | succ n ih =>
    show (update_q_value (qTrace st a r (n + 1)) st a r st).q_table = _
    simp [update_q_value, ensureState, hasState, lookupQ, setQ, ih,
      ActionValues.get_set_same, maxVal_zero_set, ActionValues.set_set, qRec]

lemma qVal_eq_qRec (st : String) (a : RLAction) (r : ℚ) :
    ∀ n : ℕ, qVal st a r n = qRec r n := by
  intro n
  cases n with
  | zero => simp [qVal, qTrace, initialScheduler, lookupQ, ActionValues.get_zero, qRec]
  | succ n =>
    simp [qVal, qTrace_table, lookupQ, ActionValues.get_set_same]

lemma qRec_nonneg (r : ℚ) (hr : 0 < r) : ∀ n : ℕ, 0 ≤ qRec r n := by
  intro n
  induction n with
  | zero => exact le_refl 0
  | succ n ih =>
    rw [qRec, max_eq_left ih]
    unfold learning_rate discount_factor
    nlinarith

lemma qRec_lt (r : ℚ) (hr : 0 < r) : ∀ n : ℕ, qRec r n < 20 * r := by
  intro n
  induction n with
  | zero =>
    show (0 : ℚ) < 20 * r
    nlinarith
  | succ n ih =>
    rw [qRec, max_eq_left (qRec_nonneg r hr n)]
    unfold learning_rate discount_factor
    nlinarith

/-- Unremarkable vital signs (no critical indicator fires), used as concrete
test data. -/
def normalVitals : VitalSigns :=
  { heart_rate := 75, respiratory_rate := 16, body_temperature := 37,
    oxygen_saturation := 99, systolic_blood_pressure := 115,
    diastolic_blood_pressure := 75, age := 40, gender := 0, weight := 60,
    height := 165/100, derived_hrv := 55, derived_pulse_pressure := 40,
    derived_bmi := 22, derived_map := 883/10 }

/-- Vital signs triggering all five critical indicators at once. -/
def criticalVitals : VitalSigns :=
  { heart_rate := 130, respiratory_rate := 28, body_temperature := 40,
    oxygen_saturation := 85, systolic_blood_pressure := 85,
    diastolic_blood_pressure := 45, age := 65, gender := 0, weight := 55,
    height := 16/10, derived_hrv := 15, derived_pulse_pressure := 40,
    derived_bmi := 215/10, derived_map := 583/10 }

/-- C1: for every assessment and time now, the priority score equals exactly
base × confidence × time_urgency × (1 + age_factor) × (1 + critical_factor),
where base is 100/50/10 for High/Medium/Low, age_factor = min(age/80, 1.5) and
critical_factor is the sum of the five independent indicator penalties capped
at 1.0; an entry triggering all five indicators has critical_factor exactly
1.0 while the uncapped sum is 1.7. -/
theorem C1_priority_formula (a : RiskAssessment) (now : ℚ) :
    calculate_priority_score a now
      = baseScore a.risk_level * a.confidence_score * timeUrgency a now
        * (1 + min ((a.vital_signs.age : ℚ) / 80) (3/2))
        * (1 + min (criticalSum a.vital_signs) 1)
    ∧ baseScore "High" = 100 ∧ baseScore "Medium" = 50 ∧ baseScore "Low" = 10
    ∧ (allFiveCritical a.vital_signs →
        criticalVitalsFactor a.vital_signs = 1
        ∧ criticalSum a.vital_signs = 17/10) := by
  refine ⟨?_, by decide, by decide, by decide, ?_⟩
  · simp only [calculate_priority_score, age_factor, criticalVitalsFactor_eq_min_sum]
  · rintro ⟨h1, h2, h3, h4, h5⟩
    constructor
    · rw [criticalVitalsFactor_eq_min_sum]
      unfold criticalSum
      rw [if_pos h1, if_pos h2, if_pos h3, if_pos h4, if_pos h5]
      norm_num
    · unfold criticalSum
      rw [if_pos h1, if_pos h2, if_pos h3, if_pos h4, if_pos h5]
      norm_num

/-- Witness for C1 at an assessment whose vitals trigger all five critical
indicators: the capped factor is exactly 1. -/
theorem C1_priority_formula_witness :
    allFiveCritical criticalVitals ∧ criticalVitalsFactor criticalVitals = 1
      ∧ criticalSum criticalVitals = 17/10 := by
  have h := (C1_priority_formula
    { risk_level := "High", vital_signs := criticalVitals,
      confidence_score := 9/10, timestamp := 0 } 0).2.2.2.2 (by decide)
  exact ⟨by decide, h.1, h.2⟩

/-- C7: the time-urgency factor is 1 + elapsed/divisor with divisor 10 for
High, 30 for Medium and 120 for Low; hence a Low entry's urgency exceeds 2.0
once more than 120 minutes have elapsed. -/
theorem C7_time_urgency (a : RiskAssessment) (now : ℚ) :
    (a.risk_level.lowerStr = "high" →
      timeUrgency a now = 1 + (now - a.timestamp) / 10)
    ∧ (a.risk_level.lowerStr = "medium" →
      timeUrgency a now = 1 + (now - a.timestamp) / 30)
    ∧ (a.risk_level.lowerStr = "low" →
      timeUrgency a now = 1 + (now - a.timestamp) / 120)
    ∧ (a.risk_level.lowerStr = "low" → 120 < now - a.timestamp →
      2 < timeUrgency a now) := by
  have hlow : a.risk_level.lowerStr = "low" →
      timeUrgency a now = 1 + (now - a.timestamp) / 120 := by
    intro h
    have hne1 : ¬ a.risk_level.lowerStr = "high" := by rw [h]; decide
    have hne2 : ¬ a.risk_level.lowerStr = "medium" := by rw [h]; decide
    simp only [timeUrgency]
    rw [if_neg hne1, if_neg hne2]
  refine ⟨?_, ?_, hlow, ?_⟩
  · intro h
    simp only [timeUrgency]
    rw [if_pos h]
  · intro h
    have hne1 : ¬ a.risk_level.lowerStr = "high" := by rw [h]; decide
    simp only [timeUrgency]
    rw [if_neg hne1, if_pos h]
  · intro h he
    rw [hlow h]
    linarith

/-- Witness for C7: a Low-risk assessment admitted at time 0 and read at
minute 121 has urgency above 2. -/
theorem C7_time_urgency_witness :
    timeUrgency
        { risk_level := "Low", vital_signs := normalVitals,
          confidence_score := 7/10, timestamp := 0 } 121
      = 1 + (121 - 0) / 120
    ∧ 2 < timeUrgency
        { risk_level := "Low", vital_signs := normalVitals,
          confidence_score := 7/10, timestamp := 0 } 121 := by
  have h := C7_time_urgency
    { risk_level := "Low", vital_signs := normalVitals,
      confidence_score := 7/10, timestamp := 0 } 121
  exact ⟨h.2.2.1 (by decide), h.2.2.2 (by decide) (by norm_num)⟩

/-- C8: with confidence clamped to the unit interval, a non-negative age and
the clock at or after admission, the priority score is non-negative and is
non-decreasing in the reading time, all other inputs held fixed. -/
theorem C8_nonneg_monotone (a : RiskAssessment) (now1 now2 : ℚ)
    (hc0 : 0 ≤ a.confidence_score) (hc1 : a.confidence_score ≤ 1)
    (hage : 0 ≤ a.vital_signs.age)
    (ht : a.timestamp ≤ now1) (h12 : now1 ≤ now2) :
    0 ≤ calculate_priority_score a now1
    ∧ calculate_priority_score a now1 ≤ calculate_priority_score a now2 := by
  have hb := (baseScore_pos a.risk_level).le
  have hcf0 := criticalVitalsFactor_nonneg a.vital_signs
  have haf := age_factor_nonneg a.vital_signs hage
  have hu1 : (1 : ℚ) ≤ timeUrgency a now1 := one_le_timeUrgency a now1 ht
  have hu2 : timeUrgency a now1 ≤ timeUrgency a now2 := timeUrgency_mono a now1 now2 h12
  have hC : 0 ≤ baseScore a.risk_level * a.confidence_score
      * (1 + age_factor a.vital_signs) * (1 + criticalVitalsFactor a.vital_signs) :=
    mul_nonneg (mul_nonneg (mul_nonneg hb hc0) (by linarith)) (by linarith)
  have key : ∀ m : ℚ, calculate_priority_score a m
      = baseScore a.risk_level * a.confidence_score
        * (1 + age_factor a.vital_signs) * (1 + criticalVitalsFactor a.vital_signs)
        * timeUrgency a m := by
    intro m
    simp only [calculate_priority_score]
    ring
  constructor
  · rw [key]
    exact mul_nonneg hC (by linarith)
  · rw [key, key]
    exact mul_le_mul_of_nonneg_left hu2 hC

/-- Witness for C8 at a Medium assessment, comparing minutes 5 and 10. -/
theorem C8_nonneg_monotone_witness :
    0 ≤ calculate_priority_score
        { risk_level := "Medium", vital_signs := normalVitals,
          confidence_score := 4/5, timestamp := 0 } 5
    ∧ calculate_priority_score
        { risk_level := "Medium", vital_signs := normalVitals,
          confidence_score := 4/5, timestamp := 0 } 5
      ≤ calculate_priority_score
        { risk_level := "Medium", vital_signs := normalVitals,
          confidence_score := 4/5, timestamp := 0 } 10 :=
  C8_nonneg_monotone _ 5 10 (by norm_num) (by norm_num) (by decide)
    (by norm_num) (by norm_num)

/-- C10: a risk label that is not high, medium or low in any casing falls
through both dict lookups: the priority base weight is the Low weight 10 and
the per-patient wait-time step is the Medium 20 minutes, with no failure. -/
theorem C10_unknown_risk_defaults (p : PatientQueue) (i : ℤ)
    (h1 : p.risk_assessment.risk_level.lowerStr ≠ "high")
    (h2 : p.risk_assessment.risk_level.lowerStr ≠ "medium")
    (h3 : p.risk_assessment.risk_level.lowerStr ≠ "low") :
    baseScore p.risk_assessment.risk_level = 10
    ∧ baseScore p.risk_assessment.risk_level = baseScore "Low"
    ∧ calculate_estimated_wait_time p i = i * 20
    ∧ baseTimePerPatient p.risk_assessment.risk_level = baseTimePerPatient "Medium" := by
  have hb : baseScore p.risk_assessment.risk_level = 10 := by
    unfold baseScore
    rw [if_neg h1, if_neg h2, if_neg h3]
  have hbt : baseTimePerPatient p.risk_assessment.risk_level = 20 := by
    unfold baseTimePerPatient
    rw [if_neg h1, if_neg h2, if_neg h3]
  refine ⟨hb, ?_, ?_, ?_⟩
  · rw [hb]
    decide
  · simp only [calculate_estimated_wait_time]
    rw [if_neg h1, hbt]
  · rw [hbt]
    decide

/-- Queue entry carrying an unrecognized risk label, used as concrete data. -/
def unknownRiskEntry : PatientQueue :=
  { patient_id := "u1",
    risk_assessment :=
      { risk_level := "Critical", vital_signs := normalVitals,
        confidence_score := 1/2, timestamp := 0 } }

/-- Witness for C10 at the label Critical and queue index 2. -/
theorem C10_unknown_risk_defaults_witness :
    baseScore unknownRiskEntry.risk_assessment.risk_level = 10
    ∧ baseScore unknownRiskEntry.risk_assessment.risk_level = baseScore "Low"
    ∧ calculate_estimated_wait_time unknownRiskEntry 2 = 2 * 20
    ∧ baseTimePerPatient unknownRiskEntry.risk_assessment.risk_level
        = baseTimePerPatient "Medium" :=
  C10_unknown_risk_defaults unknownRiskEntry 2 (by decide) (by decide) (by decide)

/-- C2: a snapshot of entries held in admission order is sorted by
non-increasing final priority, entries of equal final priority keep admission
order (FIFO on the created_at timestamp), and the assigned queue positions
are exactly 1..N in list order (so no gaps and no duplicates). -/
theorem C2_snapshot_invariants (stateOf : PatientQueue → String)
    (choice : PatientQueue → RLAction) (now : ℚ) (l : List PatientQueue)
    (hne : l ≠ [])
    (hfifo : List.Pairwise
      (fun a b => a.risk_assessment.timestamp ≤ b.risk_assessment.timestamp) l) :
    List.Pairwise (snapshotOrder now) (schedule_patients_with_rl stateOf choice now l)
    ∧ (schedule_patients_with_rl stateOf choice now l).length = l.length
    ∧ (schedule_patients_with_rl stateOf choice now l).map (fun p => p.queue_position)
        = (List.range' 1 l.length).map (fun k => (k : ℤ)) := by
  have hmap : List.Pairwise
      (fun a b => a.risk_assessment.timestamp ≤ b.risk_assessment.timestamp)
      (l.map (rlStep stateOf choice)) := by
    refine List.Pairwise.map _ ?_ hfifo
    intro a b h
    rw [rlStep_risk_assessment, rlStep_risk_assessment]
    exact h
  refine ⟨?_, length_schedule stateOf choice now l, ?_⟩
  · exact pairwise_assignPositions now 1 _ (pairwise_sortByPriority now _ hmap)
  · unfold schedule_patients_with_rl
    rw [map_pos_assignPositions, (sortByPriority_perm now _).length_eq,
      List.length_map]

/-- Concrete High-risk entry admitted at minute 0. -/
def entryA : PatientQueue :=
  { patient_id := "a",
    risk_assessment :=
      { risk_level := "High", vital_signs := normalVitals,
        confidence_score := 9/10, timestamp := 0 } }

/-- Concrete Low-risk entry admitted at minute 1. -/
def entryB : PatientQueue :=
  { patient_id := "b",
    risk_assessment :=
      { risk_level := "Low", vital_signs := normalVitals,
        confidence_score := 7/10, timestamp := 1 } }

/-- Witness for C2 on a two-entry queue read at minute 2. -/
theorem C2_snapshot_invariants_witness :
    List.Pairwise (snapshotOrder 2)
      (schedule_patients_with_rl (fun _ => "s") (fun _ => RLAction.delay_30) 2
        [entryA, entryB])
    ∧ (schedule_patients_with_rl (fun _ => "s") (fun _ => RLAction.delay_30) 2
        [entryA, entryB]).length = ([entryA, entryB] : List PatientQueue).length
    ∧ (schedule_patients_with_rl (fun _ => "s") (fun _ => RLAction.delay_30) 2
        [entryA, entryB]).map (fun p => p.queue_position)
        = (List.range' 1 ([entryA, entryB] : List PatientQueue).length).map
            (fun k => (k : ℤ)) :=
  C2_snapshot_invariants (fun _ => "s") (fun _ => RLAction.delay_30) 2
    [entryA, entryB] (by decide) (by decide)

/-- C9: starting from the cold table (the state row default-initialised to
zero), repeated identical updates with next_state equal to state and a
positive reward drive Q(state, action) monotonically up towards
reward / (1 - discount_factor), the distance to the limit shrinking by the
fixed factor 1 - learning_rate * (1 - discount_factor) at every step. -/
theorem C9_q_convergence (st : String) (a : RLAction) (r : ℚ) (hr : 0 < r)
    (n : ℕ) :
    qVal st a r n ≤ qVal st a r (n + 1)
    ∧ qVal st a r n < r / (1 - discount_factor)
    ∧ r / (1 - discount_factor) - qVal st a r (n + 1)
      = (1 - learning_rate * (1 - discount_factor))
        * (r / (1 - discount_factor) - qVal st a r n) := by
  have h20 : r / (1 - discount_factor) = 20 * r := by
    rw [div_eq_iff (by norm_num [discount_factor])]
    unfold discount_factor
    ring
  have hq0 := qRec_nonneg r hr n
  have hqlt := qRec_lt r hr n
  simp only [qVal_eq_qRec, h20]
  refine ⟨?_, hqlt, ?_⟩
  · rw [qRec, max_eq_left hq0]
    unfold learning_rate discount_factor
    linarith
  · rw [qRec, max_eq_left hq0]
    unfold learning_rate discount_factor
    ring

/-- Witness for C9: one step from the cold start with reward 1. -/
theorem C9_q_convergence_witness :
    qVal "s" RLAction.immediate 1 0 ≤ qVal "s" RLAction.immediate 1 1
    ∧ qVal "s" RLAction.immediate 1 0 < 1 / (1 - discount_factor)
    ∧ 1 / (1 - discount_factor) - qVal "s" RLAction.immediate 1 1
      = (1 - learning_rate * (1 - discount_factor))
        * (1 / (1 - discount_factor) - qVal "s" RLAction.immediate 1 0) :=
  C9_q_convergence "s" RLAction.immediate 1 (by norm_num) 0

/-- The head entry produced by publishing the one-element queue holding the
High-risk entryA. -/
def c5HeadEntry : PatientQueue :=
  { entryA with queue_position := 1, estimated_wait_time := 0 }

/-- Counterexample to C5 as stated: the head of the queue (a High-risk entry
at queue_position 1) receives estimated wait 0 from the code, while the
claimed formula position × 15 − 10 floored at 0 gives 5; the code multiplies
the 0-based index, not the 1-based position. -/
theorem C5_wait_time_counterexample :
    (setWaitTimes 0 [entryA]).map
        (fun p => (p.queue_position, p.estimated_wait_time)) = [(1, 0)]
    ∧ ¬ (∀ p ∈ setWaitTimes 0 [entryA],
        p.estimated_wait_time = max 0 (p.queue_position * 15 - 10)) := by
  refine ⟨by decide, ?_⟩
  intro h
  have hset : setWaitTimes 0 [entryA] = [c5HeadEntry] := by rfl
  have hmem : c5HeadEntry ∈ setWaitTimes 0 [entryA] := by
    rw [hset]
    exact List.mem_singleton_self _
  have := h c5HeadEntry hmem
  revert this
  decide

/-- C5 amended: for every entry of the published queue, the estimated wait is
(position − 1) × per_class_minutes, with the flat 10-minute subtraction
floored at 0 applied for High risk; in particular the head of the queue, at
position 1, has estimated wait 0 for every risk class. -/
theorem C5_wait_time (l : List PatientQueue) (p : PatientQueue)
    (hp : p ∈ setWaitTimes 0 l) :
    p.estimated_wait_time
      = (if p.risk_assessment.risk_level.lowerStr = "high"
          then max 0 ((p.queue_position - 1) * 15 - 10)
          else (p.queue_position - 1)
            * baseTimePerPatient p.risk_assessment.risk_level)
    ∧ (p.queue_position = 1 → p.estimated_wait_time = 0) := by
  obtain ⟨q, hq, j, rfl⟩ := mem_setWaitTimes 0 l p hp
  constructor
  · show calculate_estimated_wait_time q (j : ℤ)
        = if q.risk_assessment.risk_level.lowerStr = "high"
          then max 0 (((j : ℤ) + 1 - 1) * 15 - 10)
          else ((j : ℤ) + 1 - 1) * baseTimePerPatient q.risk_assessment.risk_level
    simp only [calculate_estimated_wait_time, add_sub_cancel_right]
    split_ifs with h
    · rw [show baseTimePerPatient q.risk_assessment.risk_level = 15 from by
        unfold baseTimePerPatient
        rw [if_pos h]]
    · rfl
  · intro hpos
    have hj : (j : ℤ) = 0 := by
      have : (j : ℤ) + 1 = 1 := hpos
      omega
    show calculate_estimated_wait_time q (j : ℤ) = 0
    rw [hj]
    simp only [calculate_estimated_wait_time, zero_mul]
    split_ifs <;> norm_num

/-- The head entry produced by publishing the one-element queue holding the
Low-risk entryB. -/
def c5WitnessEntry : PatientQueue :=
  { entryB with queue_position := 1, estimated_wait_time := 0 }

/-- Witness for the amended C5 on a one-entry Low-risk queue. -/
theorem C5_wait_time_witness :
    c5WitnessEntry.estimated_wait_time
      = (if c5WitnessEntry.risk_assessment.risk_level.lowerStr = "high"
          then max 0 ((c5WitnessEntry.queue_position - 1) * 15 - 10)
          else (c5WitnessEntry.queue_position - 1)
            * baseTimePerPatient c5WitnessEntry.risk_assessment.risk_level)
    ∧ (c5WitnessEntry.queue_position = 1 → c5WitnessEntry.estimated_wait_time = 0) :=
  C5_wait_time [entryB] c5WitnessEntry (by
    have hset : setWaitTimes 0 [entryB] = [c5WitnessEntry] := by rfl
    rw [hset]
    exact List.mem_singleton_self _)

lemma rlStep_rl_adjustment (stateOf : PatientQueue → String)
    (choice : PatientQueue → RLAction) (p : PatientQueue) :
    (rlStep stateOf choice p).rl_adjustment
      = if p.risk_assessment.risk_level.lowerStr = "low"
        then actionBoost (choice p) else p.rl_adjustment := by
  unfold rlStep apply_action_to_patient
  split_ifs <;> rfl

lemma actionBoost_le_ten (a : RLAction) : actionBoost a ≤ 10 := by
  cases a <;> norm_num [actionBoost]

lemma score_of_zero_confidence (a : RiskAssessment) (now : ℚ)
    (h : a.confidence_score = 0) : calculate_priority_score a now = 0 := by
  simp only [calculate_priority_score, h]
  ring

/-- High-risk entry with the model-level default confidence 0.0. -/
def hiDefault : PatientQueue :=
  { patient_id := "hi",
    risk_assessment :=
      { risk_level := "High", vital_signs := normalVitals, timestamp := 0 } }

/-- Low-risk entry with the model-level default confidence 0.0, admitted at
the same instant as hiDefault. -/
def loDefault : PatientQueue :=
  { patient_id := "lo",
    risk_assessment :=
      { risk_level := "Low", vital_signs := normalVitals, timestamp := 0 } }

/-- The low entry after the RL step chose the immediate action. -/
def loImmediate : PatientQueue :=
  { loDefault with
      estimated_wait_time := 0,
      rl_adjustment := 10,
      rl_state := some "s",
      rl_action := some "immediate" }

lemma lower_High_ne_low : ¬ ("High" : String).lowerStr = "low" := by decide

lemma lower_High_eq_high : ("High" : String).lowerStr = "high" := by decide

lemma lower_Low_eq_low : ("Low" : String).lowerStr = "low" := by decide

lemma lower_Low_ne_high : ¬ ("Low" : String).lowerStr = "high" := by decide

lemma lower_Low_ne_medium : ¬ ("Low" : String).lowerStr = "medium" := by decide

/-- Counterexample to C6 as stated: with the model default confidence 0.0
(models.RiskAssessment.confidence_score defaults to 0.0), both base priorities
collapse to 0, so when the RL layer picks the immediate action (+10 boost) for
the Low entry, the Low entry outranks the High entry admitted at the same
instant. -/
theorem C6_counterexample :
    (schedule_patients_with_rl (fun _ => "s") (fun _ => RLAction.immediate) 0
        [hiDefault, loDefault]).map (fun p => p.risk_assessment.risk_level)
      = ["Low", "High"] := by
  have h1 : rlStep (fun _ => "s") (fun _ => RLAction.immediate) hiDefault
      = hiDefault := by
    unfold rlStep
    rw [if_neg (by decide)]
  have h2 : rlStep (fun _ => "s") (fun _ => RLAction.immediate) loDefault
      = loImmediate := by
    unfold rlStep apply_action_to_patient
    rw [if_pos (by decide)]
    rfl
  have hhi0 : get_final_priority hiDefault 0 = 0 := by
    simp only [get_final_priority]
    rw [if_neg (by decide), score_of_zero_confidence _ _ rfl]
  have hlo10 : get_final_priority loImmediate 0 = 10 := by
    simp only [get_final_priority]
    rw [if_pos (by decide), score_of_zero_confidence _ _ rfl]
    rw [show loImmediate.rl_adjustment = (10 : ℚ) from rfl]
    norm_num
  have hkey : ¬ (get_final_priority loImmediate 0 ≤ get_final_priority hiDefault 0) := by
    rw [hhi0, hlo10]
    norm_num
  unfold schedule_patients_with_rl
  rw [List.map_cons, List.map_cons, List.map_nil, h1, h2]
  have hsort : sortByPriority 0 [hiDefault, loImmediate] = [loImmediate, hiDefault] := by
    show insertByPriority 0 hiDefault (sortByPriority 0 [loImmediate]) = _
    rw [show sortByPriority 0 [loImmediate] = [loImmediate] from rfl]
    rw [insertByPriority, if_neg hkey]
    rfl
  rw [hsort]
  rfl

/-- Queue entry used for the amended C6: confidence fixed at the classifier
fallback default 0.8 (utils.predict_risk_with_confidence). -/
def mkC6Entry (id risk : String) (vs : VitalSigns) (t : ℚ) : PatientQueue :=
  { patient_id := id,
    risk_assessment :=
      { risk_level := risk, vital_signs := vs, confidence_score := 4/5,
        timestamp := t } }

lemma c6_scores (vs : VitalSigns) (t now : ℚ) :
    calculate_priority_score
        { risk_level := "High", vital_signs := vs, confidence_score := 4/5,
          timestamp := t } now
      = 100 * (4/5) * (1 + (now - t)/10) * (1 + age_factor vs)
        * (1 + criticalVitalsFactor vs)
    ∧ calculate_priority_score
        { risk_level := "Low", vital_signs := vs, confidence_score := 4/5,
          timestamp := t } now
      = 10 * (4/5) * (1 + (now - t)/120) * (1 + age_factor vs)
        * (1 + criticalVitalsFactor vs) := by
  constructor
  · simp only [calculate_priority_score, timeUrgency, baseScore]
    rw [if_pos lower_High_eq_high, if_pos lower_High_eq_high]
  · simp only [calculate_priority_score, timeUrgency, baseScore]
    rw [if_neg lower_Low_ne_high, if_neg lower_Low_ne_medium,
      if_neg lower_Low_ne_high, if_neg lower_Low_ne_medium,
      if_pos lower_Low_eq_low]

lemma c6_ineq (vs : VitalSigns) (hage : 0 ≤ vs.age) (e : ℚ) (he : 0 ≤ e)
    (b : ℚ) (hb : b ≤ 10) :
    10 * (4/5) * (1 + e/120) * (1 + age_factor vs) * (1 + criticalVitalsFactor vs) + b
      < 100 * (4/5) * (1 + e/10) * (1 + age_factor vs)
        * (1 + criticalVitalsFactor vs) := by
  have haf := age_factor_nonneg vs hage
  have hcf := criticalVitalsFactor_nonneg vs
  have hP : 1 ≤ (1 + age_factor vs) * (1 + criticalVitalsFactor vs) := by nlinarith
  have hE : (72 : ℚ) ≤ 72 + (119/15) * e := by linarith
  have hE0 : (0 : ℚ) ≤ 72 + (119/15) * e := by linarith
  have hPE : (72 : ℚ) ≤ (1 + age_factor vs) * (1 + criticalVitalsFactor vs)
      * (72 + (119/15) * e) := by
    calc (72 : ℚ) ≤ 72 + (119/15) * e := hE
    _ ≤ (1 + age_factor vs) * (1 + criticalVitalsFactor vs) * (72 + (119/15) * e) :=
        le_mul_of_one_le_left hE0 hP
  nlinarith [hPE]

/-- C6 amended: a High and a Low entry admitted at the same instant with the
classifier-default confidence 0.8 and identical vitals of non-negative age:
the High entry ranks first in every snapshot taken at or after admission,
whatever RL action the policy selects for the Low entry (the model-level
default confidence 0.0 instead collapses both scores to 0 and the claim
fails, see the counterexample). -/
theorem C6_high_ranks_first (vs : VitalSigns) (hage : 0 ≤ vs.age) (t now : ℚ)
    (ht : t ≤ now) (stateOf : PatientQueue → String)
    (choice : PatientQueue → RLAction) :
    (schedule_patients_with_rl stateOf choice now
        [mkC6Entry "hi" "High" vs t, mkC6Entry "lo" "Low" vs t]).map
      (fun p => p.patient_id) = ["hi", "lo"]
    ∧ (schedule_patients_with_rl stateOf choice now
        [mkC6Entry "lo" "Low" vs t, mkC6Entry "hi" "High" vs t]).map
      (fun p => p.patient_id) = ["hi", "lo"] := by
  have hhi_eq : rlStep stateOf choice (mkC6Entry "hi" "High" vs t)
      = mkC6Entry "hi" "High" vs t := by
    unfold rlStep
    simp only [mkC6Entry]
    rw [if_neg lower_High_ne_low]
  have hlo_risk : (rlStep stateOf choice (mkC6Entry "lo" "Low" vs t)).risk_assessment
      = (mkC6Entry "lo" "Low" vs t).risk_assessment :=
    rlStep_risk_assessment _ _ _
  have hlo_adj : (rlStep stateOf choice (mkC6Entry "lo" "Low" vs t)).rl_adjustment
      = actionBoost (choice (mkC6Entry "lo" "Low" vs t)) := by
    rw [rlStep_rl_adjustment]
    simp only [mkC6Entry]
    rw [if_pos lower_Low_eq_low]
  have hlo_id : (rlStep stateOf choice (mkC6Entry "lo" "Low" vs t)).patient_id
      = "lo" := by
    rw [rlStep_patient_id]
    rfl
  set loS := rlStep stateOf choice (mkC6Entry "lo" "Low" vs t) with hloS
  have hkeyhi : get_final_priority (mkC6Entry "hi" "High" vs t) now
      = 100 * (4/5) * (1 + (now - t)/10) * (1 + age_factor vs)
        * (1 + criticalVitalsFactor vs) := by
    simp only [get_final_priority, mkC6Entry]
    rw [if_neg lower_High_ne_low]
    exact (c6_scores vs t now).1
  have hkeylo : get_final_priority loS now
      = 10 * (4/5) * (1 + (now - t)/120) * (1 + age_factor vs)
        * (1 + criticalVitalsFactor vs)
        + actionBoost (choice (mkC6Entry "lo" "Low" vs t)) := by
    simp only [get_final_priority]
    rw [hlo_risk, hlo_adj]
    simp only [mkC6Entry]
    rw [if_pos lower_Low_eq_low, (c6_scores vs t now).2]
  have hord : get_final_priority loS now
      < get_final_priority (mkC6Entry "hi" "High" vs t) now := by
    rw [hkeylo, hkeyhi]
    exact c6_ineq vs hage (now - t) (by linarith) _ (actionBoost_le_ten _)
  constructor
  · unfold schedule_patients_with_rl
    rw [List.map_cons, List.map_cons, List.map_nil, hhi_eq, ← hloS]
    have hsort : sortByPriority now [mkC6Entry "hi" "High" vs t, loS]
        = [mkC6Entry "hi" "High" vs t, loS] := by
      show insertByPriority now (mkC6Entry "hi" "High" vs t)
        (sortByPriority now [loS]) = _
      rw [show sortByPriority now [loS] = [loS] from rfl]
      rw [insertByPriority, if_pos hord.le]
    rw [hsort]
    simp only [assignPositions, List.map_cons, List.map_nil]
    rw [show ({ mkC6Entry "hi" "High" vs t with
          queue_position := ((1 : ℕ) : ℤ) } : PatientQueue).patient_id
        = "hi" from rfl]
    rw [show ({ loS with queue_position := ((2 : ℕ) : ℤ) } :
        PatientQueue).patient_id = loS.patient_id from rfl]
    rw [hlo_id]
  · unfold schedule_patients_with_rl
    rw [List.map_cons, List.map_cons, List.map_nil, hhi_eq, ← hloS]
    have hsort : sortByPriority now [loS, mkC6Entry "hi" "High" vs t]
        = [mkC6Entry "hi" "High" vs t, loS] := by
      show insertByPriority now loS
        (sortByPriority now [mkC6Entry "hi" "High" vs t]) = _
      rw [show sortByPriority now [mkC6Entry "hi" "High" vs t]
        = [mkC6Entry "hi" "High" vs t] from rfl]
      rw [insertByPriority, if_neg (not_le.mpr hord)]
      rfl
    rw [hsort]
    simp only [assignPositions, List.map_cons, List.map_nil]
    rw [show ({ mkC6Entry "hi" "High" vs t with
          queue_position := ((1 : ℕ) : ℤ) } : PatientQueue).patient_id
        = "hi" from rfl]
    rw [show ({ loS with queue_position := ((2 : ℕ) : ℤ) } :
        PatientQueue).patient_id = loS.patient_id from rfl]
    rw [hlo_id]

/-- Witness for the amended C6 at concrete inputs: normal vitals, admission at
minute 0, snapshot at minute 3, a fixed state key and the immediate action. -/
theorem C6_high_ranks_first_witness :
    (schedule_patients_with_rl (fun _ => "s") (fun _ => RLAction.immediate) 3
        [mkC6Entry "hi" "High" normalVitals 0, mkC6Entry "lo" "Low" normalVitals 0]).map
      (fun p => p.patient_id) = ["hi", "lo"]
    ∧ (schedule_patients_with_rl (fun _ => "s") (fun _ => RLAction.immediate) 3
        [mkC6Entry "lo" "Low" normalVitals 0, mkC6Entry "hi" "High" normalVitals 0]).map
      (fun p => p.patient_id) = ["hi", "lo"] :=
  C6_high_ranks_first normalVitals (by decide) 0 3 (by norm_num)
    (fun _ => "s") (fun _ => RLAction.immediate)

/-- High-risk assessment used twice with the same admission timestamp, to
exhibit the duplicate-timestamp behaviour of the pop endpoint. -/
def assessDup : RiskAssessment :=
  { risk_level := "High", vital_signs := normalVitals,
    confidence_score := 9/10, timestamp := 0 }

/-- The queue head produced for two copies of assessDup. -/
def c3Top : PatientQueue :=
  { mkQueueEntry 0 assessDup with queue_position := 1, estimated_wait_time := 0 }

/-- The second queue entry produced for two copies of assessDup. -/
def c3Second : PatientQueue :=
  { mkQueueEntry 1 assessDup with queue_position := 2, estimated_wait_time := 5 }

/-- Counterexample to C3 as stated: with two assessments sharing one
timestamp, the pop endpoint's removal filter (which deletes every assessment
whose timestamp equals the popped entry's timestamp) removes both entries, so
the store left behind has length 0 instead of length 1: not exactly the
single top entry. -/
theorem C3_pop_counterexample :
    ∃ top : PatientQueue,
      popNext (fun _ => "s") (fun _ => RLAction.delay_30) 0 [assessDup, assessDup]
        = Except.ok (top, ([] : List RiskAssessment))
      ∧ ([] : List RiskAssessment).length ≠ [assessDup, assessDup].length - 1 := by
  have hstep0 : rlStep (fun _ => "s") (fun _ => RLAction.delay_30)
      (mkQueueEntry 0 assessDup) = mkQueueEntry 0 assessDup := by
    unfold rlStep
    rw [if_neg (by decide)]
  have hstep1 : rlStep (fun _ => "s") (fun _ => RLAction.delay_30)
      (mkQueueEntry 1 assessDup) = mkQueueEntry 1 assessDup := by
    unfold rlStep
    rw [if_neg (by decide)]
  have hsort : sortByPriority 0 [mkQueueEntry 0 assessDup, mkQueueEntry 1 assessDup]
      = [mkQueueEntry 0 assessDup, mkQueueEntry 1 assessDup] := by
    show insertByPriority 0 (mkQueueEntry 0 assessDup)
      (sortByPriority 0 [mkQueueEntry 1 assessDup]) = _
    rw [show sortByPriority 0 [mkQueueEntry 1 assessDup]
      = [mkQueueEntry 1 assessDup] from rfl]
    rw [insertByPriority, if_pos (le_of_eq (by rfl))]
  have hmanage : manage_patient_queue (fun _ => "s") (fun _ => RLAction.delay_30) 0
      [assessDup, assessDup] = [c3Top, c3Second] := by
    unfold manage_patient_queue schedule_patients_with_rl
    rw [show buildQueue 0 [assessDup, assessDup]
      = [mkQueueEntry 0 assessDup, mkQueueEntry 1 assessDup] from rfl]
    rw [List.map_cons, List.map_cons, List.map_nil, hstep0, hstep1, hsort]
    rfl
  refine ⟨c3Top, ?_, by decide⟩
  unfold popNext
  rw [if_neg (by decide), hmanage]
  rfl

/-- C3 amended: on an empty store the pop endpoint yields the distinct
empty-queue error; on a non-empty store whose admission timestamps are
pairwise distinct it returns the snapshot head and removes exactly that one
assessment (the removal filter keys on the timestamp, so distinctness is what
makes the removal single); the popped timestamp is absent from every
subsequent snapshot and the remaining snapshot positions renumber 1..N. -/
theorem C3_pop_semantics (stateOf : PatientQueue → String)
    (choice : PatientQueue → RLAction) (now : ℚ) (l : List RiskAssessment)
    (hdist : l.Pairwise (fun a b => a.timestamp ≠ b.timestamp)) :
    (l = [] → popNext stateOf choice now l = Except.error "No patients in queue")
    ∧ (l ≠ [] → ∃ top rest,
        popNext stateOf choice now l = Except.ok (top, rest)
        ∧ rest.length + 1 = l.length
        ∧ rest = l.filter
            (fun a => decide (a.timestamp ≠ top.risk_assessment.timestamp))
        ∧ (∀ (stateOf2 : PatientQueue → String)
            (choice2 : PatientQueue → RLAction) (now2 : ℚ) (e : PatientQueue),
            e ∈ manage_patient_queue stateOf2 choice2 now2 rest →
            e.risk_assessment.timestamp ≠ top.risk_assessment.timestamp)
        ∧ (∀ (stateOf2 : PatientQueue → String)
            (choice2 : PatientQueue → RLAction) (now2 : ℚ),
            (manage_patient_queue stateOf2 choice2 now2 rest).map
              (fun p => p.queue_position)
            = (List.range' 1 rest.length).map (fun k => (k : ℤ)))) := by
  constructor
  · intro h
    subst h
    rfl
  · intro hne
    have hlen := length_manage stateOf choice now l
    obtain ⟨next, q, hq⟩ : ∃ next q,
        manage_patient_queue stateOf choice now l = next :: q := by
      cases hm : manage_patient_queue stateOf choice now l with
      | nil =>
        have h0 : l.length = 0 := by
          rw [← hlen, hm]
          rfl
        exact absurd (List.length_eq_zero.1 h0) hne
      | cons a b => exact ⟨a, b, rfl⟩
    refine ⟨next,
      l.filter (fun a => decide (a.timestamp ≠ next.risk_assessment.timestamp)),
      ?_, ?_, rfl, ?_, ?_⟩
    · unfold popNext
      rw [if_neg hne, hq]
    · have hmem : next.risk_assessment ∈ l := by
        have h1 : next.risk_assessment
            ∈ (manage_patient_queue stateOf choice now l).map
              (fun p => p.risk_assessment) := by
          rw [hq]
          exact List.mem_map_of_mem _ (List.mem_cons_self _ _)
        exact (manage_assessments_perm stateOf choice now l).mem_iff.1 h1
      exact filter_ne_timestamp_length l hdist next.risk_assessment hmem
    · intro stateOf2 choice2 now2 e he
      have h1 : e.risk_assessment
          ∈ (manage_patient_queue stateOf2 choice2 now2
              (l.filter (fun a =>
                decide (a.timestamp ≠ next.risk_assessment.timestamp)))).map
            (fun p => p.risk_assessment) :=
        List.mem_map_of_mem _ he
      have h2 := (manage_assessments_perm stateOf2 choice2 now2 _).mem_iff.1 h1
      exact of_decide_eq_true (List.mem_filter.1 h2).2
    · intro stateOf2 choice2 now2
      rw [map_pos_manage]

/-- Medium-risk assessment admitted at minute 1, timestamp distinct from
assessDup's. -/
def assessLater : RiskAssessment :=
  { risk_level := "Medium", vital_signs := normalVitals,
    confidence_score := 9/10, timestamp := 1 }

/-- Witness for the amended C3 on a two-assessment store with distinct
timestamps. -/
theorem C3_pop_semantics_witness :
    (([assessDup, assessLater] : List RiskAssessment) = [] →
      popNext (fun _ => "s") (fun _ => RLAction.delay_30) 2 [assessDup, assessLater]
        = Except.error "No patients in queue")
    ∧ (([assessDup, assessLater] : List RiskAssessment) ≠ [] → ∃ top rest,
        popNext (fun _ => "s") (fun _ => RLAction.delay_30) 2 [assessDup, assessLater]
          = Except.ok (top, rest)
        ∧ rest.length + 1 = ([assessDup, assessLater] : List RiskAssessment).length
        ∧ rest = ([assessDup, assessLater] : List RiskAssessment).filter
            (fun a => decide (a.timestamp ≠ top.risk_assessment.timestamp))
        ∧ (∀ (stateOf2 : PatientQueue → String)
            (choice2 : PatientQueue → RLAction) (now2 : ℚ) (e : PatientQueue),
            e ∈ manage_patient_queue stateOf2 choice2 now2 rest →
            e.risk_assessment.timestamp ≠ top.risk_assessment.timestamp)
        ∧ (∀ (stateOf2 : PatientQueue → String)
            (choice2 : PatientQueue → RLAction) (now2 : ℚ),
            (manage_patient_queue stateOf2 choice2 now2 rest).map
              (fun p => p.queue_position)
            = (List.range' 1 rest.length).map (fun k => (k : ℤ)))) :=
  C3_pop_semantics (fun _ => "s") (fun _ => RLAction.delay_30) 2
    [assessDup, assessLater] (by decide)

/-- Concrete outcome for the feedback path: 30 minutes waited, satisfaction
0.9, utilization 0.5. -/
def c4Outcome : Outcome :=
  { actual_wait_time := 30, satisfaction_score := 9/10,
    resource_utilization := 1/2 }

/-- Low-risk entry carrying the pending (state, action) binding recorded at
scheduling time by schedule_patients_with_rl. -/
def lowBoundEntry : PatientQueue :=
  { patient_id := "p1",
    risk_assessment :=
      { risk_level := "Low", vital_signs := normalVitals,
        confidence_score := 4/5, timestamp := 0 },
    rl_state := some "low_8_3_1_morning",
    rl_action := some "delay_30" }

lemma lookupQ_head (s : String) (v : ActionValues) (t : QTable) :
    lookupQ ((s, v) :: t) s = v := by
  unfold lookupQ
  rw [if_pos rfl]

/-- Counterexample to C4 as stated: recording feedback for a patient with a
pending binding leaves the RL scheduler byte-for-byte unchanged (the table
stays empty), because provide_feedback is a pass statement; the Q-learning
update the claim mandates would have written a fresh state row with
Q(state, delay_30) = 29/20 into the table. -/
theorem C4_feedback_counterexample :
    (update_with_outcome initialManager "p1" c4Outcome).1.rl_scheduler
      = initialManager.rl_scheduler
    ∧ (update_q_value initialManager.rl_scheduler "low_8_3_1_morning"
        RLAction.delay_30 (get_reward RLAction.delay_30 lowBoundEntry c4Outcome)
        "low_8_3_1_morning").q_table
      ≠ initialManager.rl_scheduler.q_table
    ∧ (lookupQ (update_q_value initialManager.rl_scheduler "low_8_3_1_morning"
        RLAction.delay_30 (get_reward RLAction.delay_30 lowBoundEntry c4Outcome)
        "low_8_3_1_morning").q_table "low_8_3_1_morning").get RLAction.delay_30
      = 29/20 := by
  have hreward : get_reward RLAction.delay_30 lowBoundEntry c4Outcome = 29/2 := by
    simp only [get_reward, lowBoundEntry, c4Outcome, lower_Low_eq_low]
    norm_num
  have htab : (update_q_value initialManager.rl_scheduler "low_8_3_1_morning"
      RLAction.delay_30 (get_reward RLAction.delay_30 lowBoundEntry c4Outcome)
      "low_8_3_1_morning").q_table
      = [("low_8_3_1_morning", ActionValues.zero.set RLAction.delay_30
          (0 + learning_rate * (get_reward RLAction.delay_30 lowBoundEntry c4Outcome
            + discount_factor * ActionValues.zero.maxVal - 0)))] := rfl
  refine ⟨rfl, ?_, ?_⟩
  · rw [htab, show initialManager.rl_scheduler.q_table = ([] : QTable) from rfl]
    exact List.cons_ne_nil _ _
  · rw [htab, lookupQ_head, ActionValues.get_set_same, hreward, maxVal_zero]
    norm_num [learning_rate, discount_factor]

/-- C4 amended: recording feedback appends the record to the manager's
history and leaves the RL scheduler (in particular the Q-table) unchanged:
no (state, action) binding lookup and no Q-learning update ever occurs, since
provide_feedback is a no-op; the save trigger fires exactly when the record
count reaches a multiple of 10. -/
theorem C4_feedback_behaviour (m : ManagerState) (pid : String) (o : Outcome) :
    (update_with_outcome m pid o).1.patient_history
      = m.patient_history ++ [(pid, o)]
    ∧ (update_with_outcome m pid o).1.rl_scheduler = m.rl_scheduler
    ∧ ((update_with_outcome m pid o).2 = true
        ↔ (m.patient_history.length + 1) % 10 = 0) := by
  refine ⟨rfl, rfl, ?_⟩
  simp [update_with_outcome]

end Triage
